import Mathlib

/-!
Verification development for the donutsmp-ah-scanner repository.

The Python sources (src/scanner.py, src/api.py) are shallowly embedded below:
pure computations become Lean functions over ℚ (SQLite REAL values are
modelled as rationals, which is exact for the ordering/indexing/averaging
operations the code performs), SQLite tables become lists of row structures,
timestamps are naturals (milliseconds) compared through ℤ where the code
subtracts, and Python exceptions become an explicit `Except` error channel.
Square roots (statistics.stdev / statistics.pstdev) leave ℚ, so the embedding
records the corresponding variance instead; no verified statement below
depends on a standard deviation or volatility value.
-/

/-! ## Python / SQL primitives -/

/-- Exceptions raised by the Python code paths that the embedding models. -/
inductive PyExc where
  | permissionError (msg : String)
  | runtimeError (msg : String)
  | valueError (msg : String)
  | typeError (msg : String)
deriving DecidableEq

/-- SQL `IS` comparison on nullable text columns: NULL matches NULL. -/
def sqlIsB (a b : Option String) : Bool := a == b

/-- SQL `=` comparison on nullable text columns: any comparison involving
NULL is not true, so a NULL field never matches, not even a NULL parameter. -/
def sqlEqB (a b : Option String) : Bool :=
  match a, b with
  | some x, some y => x == y
  | _, _ => false

/-- Stable insertion of one element into a sorted list (helper for `sortBy`). -/
def insertBy {α : Type} (le : α → α → Bool) (x : α) : List α → List α
  | [] => [x]
  | b :: bs => if le x b then x :: b :: bs else b :: insertBy le x bs

/-- Stable sort; models Python `sorted`/`list.sort` and SQL ORDER BY
(deterministically keeping the original order of ties). -/
def sortBy {α : Type} (le : α → α → Bool) : List α → List α
  | [] => []
  | x :: xs => insertBy le x (sortBy le xs)

/-- Ascending sort of prices; models `sorted(prices)`. -/
def sortAsc (l : List ℚ) : List ℚ := sortBy (fun a b => decide (a ≤ b)) l

/-- Minimum of a nonempty Python list (`min(xs)`); 0 on the unreachable empty case. -/
def listMinQ : List ℚ → ℚ
  | [] => 0
  | x :: xs => xs.foldl min x

/-- Maximum of a nonempty Python list (`max(xs)`). -/
def listMaxQ : List ℚ → ℚ
  | [] => 0
  | x :: xs => xs.foldl max x

/-- Arithmetic mean; models `statistics.mean` on a nonempty list. -/
def pyMean (l : List ℚ) : ℚ := l.sum / l.length

/-- Median; models `statistics.median`: middle element for odd length, the
average of the two middle elements for even length. -/
def pyMedian (l : List ℚ) : ℚ :=
  let s := sortAsc l
  let n := s.length
  if n % 2 = 1 then s.getD (n / 2) 0
  else (s.getD (n / 2 - 1) 0 + s.getD (n / 2) 0) / 2

/-- Sample variance with denominator n−1; `statistics.stdev` is its square
root (which leaves ℚ, so the embedding keeps the variance). 0 for n ≤ 1. -/
def sampleVarianceQ (l : List ℚ) : ℚ :=
  if l.length ≤ 1 then 0
  else (l.map (fun x => (x - pyMean l) ^ 2)).sum / ((l.length : ℚ) - 1)

/-- Population variance with denominator n; `statistics.pstdev` is its square root. -/
def popVarianceQ (l : List ℚ) : ℚ :=
  if l.length = 0 then 0
  else (l.map (fun x => (x - pyMean l) ^ 2)).sum / (l.length : ℚ)

/-- Floor of a rational as an integer (computable; agrees with ⌊q⌋). -/
def ratFloor (q : ℚ) : ℤ := q.num.fdiv q.den

/-- Python `round()` to an integer: round half to even (banker's rounding). -/
def pyRoundHalfEven (q : ℚ) : ℤ :=
  let f := ratFloor q
  let r := q - (f : ℚ)
  if r < 1 / 2 then f
  else if 1 / 2 < r then f + 1
  else if f % 2 = 0 then f else f + 1

/-- Python `round(x, 1)` on the exact rational value. -/
def pyRound1 (q : ℚ) : ℚ := (pyRoundHalfEven (q * 10) : ℚ) / 10

/-- Python list indexing `l[i]` with negative-index wraparound
(`l[-1]` is the last element); 0 on the out-of-range cases, which the
embedded call sites never reach. -/
def pyListGet (l : List ℚ) (i : Int) : ℚ :=
  if i < 0 then l.getD (l.length - (-i).toNat) 0 else l.getD i.toNat 0

/-! ## Quartile index formulas

scanner.py uses `prices_sorted[max(0, len*25//100 - 1)]` and
`prices_sorted[min(len-1, len*75//100 - 1)]` (compute_stats lines 256–257 and
compact_old_data lines 454–455), while api.py `_get_item_stats` uses
`sorted_prices[n//4]` and `sorted_prices[(3*n)//4]` (lines 181–184). -/

/-- Index used by scanner.py for the 25th percentile: `max(0, n*25//100 - 1)`. -/
def compactP25Idx (n : Nat) : Int := max 0 (((n * 25 / 100 : Nat) : Int) - 1)

/-- Index used by scanner.py for the 75th percentile: `min(n-1, n*75//100 - 1)`.
For n = 1 this evaluates to −1, which Python resolves to the last element. -/
def compactP75Idx (n : Nat) : Int :=
  min ((n : Int) - 1) (((n * 75 / 100 : Nat) : Int) - 1)

/-- The p25 value scanner.py reads from a sorted price list. -/
def compactP25 (sorted : List ℚ) : ℚ := pyListGet sorted (compactP25Idx sorted.length)

/-- The p75 value scanner.py reads from a sorted price list. -/
def compactP75 (sorted : List ℚ) : ℚ := pyListGet sorted (compactP75Idx sorted.length)

/-- Index used by api.py `_get_item_stats` for q1: `n // 4`. -/
def apiQ1Idx (n : Nat) : Nat := n / 4

/-- Index used by api.py `_get_item_stats` for q3: `(3 * n) // 4`. -/
def apiQ3Idx (n : Nat) : Nat := 3 * n / 4

/-- The q1 value api.py reads from a sorted price list. -/
def apiQ1 (sorted : List ℚ) : ℚ := sorted.getD (apiQ1Idx sorted.length) 0

/-- The q3 value api.py reads from a sorted price list. -/
def apiQ3 (sorted : List ℚ) : ℚ := sorted.getD (apiQ3Idx sorted.length) 0

/-! ## Rows and database state -/

/-- A row of the `events` table (scanner.py init_db, lines 89–104). The
AUTOINCREMENT surrogate id is modelled by list position (insertion order). -/
structure EventRow where
  type : String
  ts : Nat
  item_id : Option String
  item_name : Option String
  price : Option ℚ
  seller_name : Option String
  seller_uuid : Option String
  count : Option Int
  time_left : Option Int
deriving DecidableEq

/-- A row of the `prices` table (scanner.py init_db, lines 66–76). -/
structure PriceRow where
  id : Option String
  item_id : Option String
  item_name : Option String
  price : Option ℚ
  seen_at : Nat
deriving DecidableEq

/-- A row of the `rollups_daily` table (scanner.py init_db, lines 105–118).
The `date` text column is represented by its day number since the Unix epoch;
SQLite's `date(ts/1000,'unixepoch')` is a bijective renaming of that number. -/
structure RollupRow where
  date : Nat
  item_id : Option String
  item_name : Option String
  median : ℚ
  p25 : ℚ
  p75 : ℚ
  count : Nat
deriving DecidableEq

/-- The SQLite database as seen through the scanner's single connection.
`events` holds committed rows; `eventsPending` holds rows inserted in the
connection's open (uncommitted) transaction, which this connection's own
reads do see. The `listings` and `transactions` tables are never read by any
code path verified below and are omitted. -/
structure Db where
  events : List EventRow
  eventsPending : List EventRow
  prices : List PriceRow
  rollups : List RollupRow
deriving DecidableEq

/-- Rows of `events` visible to the scanner's connection (committed ++ pending). -/
def visibleEvents (db : Db) : List EventRow := db.events ++ db.eventsPending

/-- Effect of `conn.commit()` on the events table. -/
def commitDb (db : Db) : Db :=
  { db with events := db.events ++ db.eventsPending, eventsPending := [] }

/-! ## JSON values and fetched entries -/

/-- A JSON value in a position the code converts with `float()`/`int()`:
null, a number, a string, or some non-numeric structure (array/object),
for which the conversion raises. -/
inductive PyVal where
  | vNull
  | vNum (q : ℚ)
  | vStr (s : String)
  | vArr
deriving DecidableEq

/-- Digit-string accumulator for the numeric-literal parsers. -/
def digitsValGo : Nat → List Char → Option Nat
  | acc, [] => some acc
  | acc, c :: cs => if c.isDigit then digitsValGo (acc * 10 + (c.toNat - 48)) cs else none

/-- Parse a nonempty all-digit character list. -/
def parseDigitsList (cs : List Char) : Option Nat :=
  if cs = [] then none else digitsValGo 0 cs

/-- Strip one leading minus sign. -/
def stripNeg : List Char → Bool × List Char
  | '-' :: cs => (true, cs)
  | cs => (false, cs)

/-- Split a character list at every dot. -/
def splitDotGo : List Char → List Char → List (List Char)
  | acc, [] => [acc.reverse]
  | acc, c :: cs => if c = '.' then acc.reverse :: splitDotGo [] cs else splitDotGo (c :: acc) cs

/-- Python `float()` on a string, modelled for plain decimal literals
(optional sign, digits, optional fractional part); other accepted spellings
(exponents, inf/nan) are not modelled. `none` means a ValueError. -/
def pyFloatStr (s : String) : Option ℚ :=
  let (neg, cs) := stripNeg s.toList
  match splitDotGo [] cs with
  | [i] => (parseDigitsList i).map (fun n => if neg then -(n : ℚ) else (n : ℚ))
  | [i, f] =>
      match parseDigitsList i, parseDigitsList f with
      | some a, some b =>
          let v : ℚ := (a : ℚ) + (b : ℚ) / (10 : ℚ) ^ f.length
          some (if neg then -v else v)
      | _, _ => none
  | _ => none

/-- Python `int()` on a string: optional sign and digits only (a decimal
point raises, unlike `float()`). `none` means a ValueError. -/
def pyIntStr (s : String) : Option ℤ :=
  let (neg, cs) := stripNeg s.toList
  (parseDigitsList cs).map (fun n => if neg then -(n : ℤ) else (n : ℤ))

/-- The expression `float(price) if price is not None else None`
(scanner.py line 195/228). -/
def pyFloatOpt : PyVal → Except PyExc (Option ℚ)
  | .vNull => .ok none
  | .vNum q => .ok (some q)
  | .vStr s =>
      match pyFloatStr s with
      | some q => .ok (some q)
      | none => .error (.valueError "could not convert string to float")
  | .vArr => .error (.typeError "float() argument must be a string or a real number")

/-- The expression `int(time_left) if time_left is not None else None`
(scanner.py line 199). Python `int()` on a number truncates toward zero. -/
def pyIntOpt : PyVal → Except PyExc (Option ℤ)
  | .vNull => .ok none
  | .vNum q => .ok (some (q.num / (q.den : ℤ)))
  | .vStr s =>
      match pyIntStr s with
      | some z => .ok (some z)
      | none => .error (.valueError "invalid literal for int()")
  | .vArr => .error (.typeError "int() argument must be a string or a real number")

/-- The `item` sub-object of a fetched entry; `entry.get("item", {})` yields
all-absent fields when missing. -/
structure RawItem where
  id : Option String
  display_name : Option String
  count : Option Int
deriving DecidableEq

/-- One entry of a listings page (`response["result"]`, scanner.py lines 178–184).
The seller sub-object is modelled by its two extracted fields. -/
structure ListingEntry where
  item : RawItem
  price : PyVal
  seller_name : Option String
  seller_uuid : Option String
  time_left : PyVal
deriving DecidableEq

/-- One entry of a transactions page (scanner.py lines 212–217).
`unixMillisDateSold` is read by the code but never inserted. -/
structure TransactionEntry where
  item : RawItem
  price : PyVal
  seller_name : Option String
  seller_uuid : Option String
  unixMillisDateSold : Option Int
deriving DecidableEq

/-- Python truthiness of an optional string: `None` and `""` are falsy. -/
def pyFalsy : Option String → Bool
  | none => true
  | some t => t == ""

/-- Embeds `_item_display` (scanner.py lines 164–170): the display name
falls back to the id when missing or empty. -/
def item_display (item : RawItem) : Option String × Option String :=
  (item.id, if pyFalsy item.display_name then item.id else item.display_name)

/-- Conversion of one listing entry into the `events` row inserted by
`store_listings` (scanner.py lines 185–201); the error channel carries the
exception `float()`/`int()` may raise. -/
def toListingRow (ts : Nat) (e : ListingEntry) : Except PyExc EventRow := do
  let (iid, iname) := item_display e.item
  let p ← pyFloatOpt e.price
  let tl ← pyIntOpt e.time_left
  pure { type := "listing", ts := ts, item_id := iid, item_name := iname,
         price := p, seller_name := e.seller_name, seller_uuid := e.seller_uuid,
         count := e.item.count, time_left := tl }

/-- Conversion of one transaction entry into the `events` row inserted by
`store_transactions` (scanner.py lines 218–234): count and time_left are NULL. -/
def toTransactionRow (ts : Nat) (e : TransactionEntry) : Except PyExc EventRow := do
  let (iid, iname) := item_display e.item
  let p ← pyFloatOpt e.price
  pure { type := "transaction", ts := ts, item_id := iid, item_name := iname,
         price := p, seller_name := e.seller_name, seller_uuid := e.seller_uuid,
         count := none, time_left := none }

/-- An INSERT into `events` on the open transaction. -/
def insertEventRow (db : Db) (r : EventRow) : Db :=
  { db with eventsPending := db.eventsPending ++ [r] }

/-- Loop body of `store_listings` (scanner.py lines 178–204): insert each
converted entry, count it, and `conn.commit()` after the loop. A conversion
error propagates immediately; the already-inserted prefix stays pending in
the open transaction (the source has no rollback on this path). -/
def storeListingsGo (ts : Nat) : Db → Nat → List ListingEntry → Db × Except PyExc Nat
  | db, n, [] => (commitDb db, .ok n)
  | db, n, e :: es =>
      match toListingRow ts e with
      | .error exc => (db, .error exc)
      | .ok r => storeListingsGo ts (insertEventRow db r) (n + 1) es

/-- Embeds `store_listings` (scanner.py lines 173–204), applied to the
`result` list of a fetched response with the batch timestamp `ts`. -/
def store_listings (db : Db) (ts : Nat) (entries : List ListingEntry) :
    Db × Except PyExc Nat :=
  storeListingsGo ts db 0 entries

/-- Loop body of `store_transactions` (scanner.py lines 212–237). -/
def storeTransactionsGo (ts : Nat) :
    Db → Nat → List TransactionEntry → Db × Except PyExc Nat
  | db, n, [] => (commitDb db, .ok n)
  | db, n, e :: es =>
      match toTransactionRow ts e with
      | .error exc => (db, .error exc)
      | .ok r => storeTransactionsGo ts (insertEventRow db r) (n + 1) es

/-- Embeds `store_transactions` (scanner.py lines 207–237). -/
def store_transactions (db : Db) (ts : Nat) (entries : List TransactionEntry) :
    Db × Except PyExc Nat :=
  storeTransactionsGo ts db 0 entries

/-- Rows produced by the longest prefix of a listing batch that converts
without an exception, stopping at the first failing entry. -/
def convRowsPrefixL (ts : Nat) : List ListingEntry → List EventRow
  | [] => []
  | e :: es =>
      match toListingRow ts e with
      | .ok r => r :: convRowsPrefixL ts es
      | .error _ => []

/-- The first conversion exception of a listing batch, if any. -/
def firstConvErrorL (ts : Nat) : List ListingEntry → Option PyExc
  | [] => none
  | e :: es =>
      match toListingRow ts e with
      | .ok _ => firstConvErrorL ts es
      | .error exc => some exc

/-- Rows produced by the longest cleanly-converting prefix of a transaction batch. -/
def convRowsPrefixT (ts : Nat) : List TransactionEntry → List EventRow
  | [] => []
  | e :: es =>
      match toTransactionRow ts e with
      | .ok r => r :: convRowsPrefixT ts es
      | .error _ => []

/-- The first conversion exception of a transaction batch, if any. -/
def firstConvErrorT (ts : Nat) : List TransactionEntry → Option PyExc
  | [] => none
  | e :: es =>
      match toTransactionRow ts e with
      | .ok _ => firstConvErrorT ts es
      | .error exc => some exc

/-! ## Statistics engine (api.py `_get_item_stats`, lines 162–217) -/

/-- Identity match used by every per-item query in api.py: plain SQL `=`
on both columns (`item_id = ? AND item_name = ?`). -/
def apiIdentMatch (eid ename id name : Option String) : Bool :=
  sqlEqB eid id && sqlEqB ename name

/-- Row filter of the sample query in `_get_item_stats` (api.py lines 164–172):
`item_id = ? AND item_name = ? AND type = 'listing' AND price IS NOT NULL`. -/
def apiStatsRowFilter (e : EventRow) (id name : Option String) : Bool :=
  apiIdentMatch e.item_id e.item_name id name && (e.type == "listing") && !(e.price == none)

/-- Descending-timestamp comparison for ORDER BY ts DESC. -/
def tsDescB (a b : EventRow) : Bool := decide (b.ts ≤ a.ts)

/-- The price list produced by the `_get_item_stats` query: matching rows,
newest first, capped at 1000, prices extracted. -/
def apiStatsQuery (evs : List EventRow) (id name : Option String) : List ℚ :=
  ((sortBy tsDescB (evs.filter (fun e => apiStatsRowFilter e id name))).take 1000).filterMap
    (·.price)

/-- All stored non-null listing prices for an identity under the same row
filter, without the 1000-sample cap (the full stored sample set). -/
def storedSamples (evs : List EventRow) (id name : Option String) : List ℚ :=
  (evs.filter (fun e => apiStatsRowFilter e id name)).filterMap (·.price)

/-- The record `_get_item_stats` returns. `sampleVariance` is the square of
the reported `stdev`; `volatility = stdev/mean*100` is likewise a square
root away and is not represented. -/
structure ItemStats where
  median : ℚ
  mean : ℚ
  minP : ℚ
  maxP : ℚ
  q1 : ℚ
  q3 : ℚ
  sampleVariance : ℚ
  sampleSize : Nat
deriving DecidableEq

/-- Core computation of `_get_item_stats` (api.py lines 175–217) on the
queried price list: absent for fewer than 3 samples; otherwise quartiles by
positional index, IQR outlier filtering with fallback to the unfiltered
list, and summary statistics over the filtered list. -/
def getItemStats (prices : List ℚ) : Option ItemStats :=
  if prices = [] ∨ prices.length < 3 then none
  else
    let sorted := sortAsc prices
    let q1 := apiQ1 sorted
    let q3 := apiQ3 sorted
    let iqr := q3 - q1
    let filtered0 :=
      if 0 < iqr then
        prices.filter (fun p => decide (max 0 (q1 - 3 / 2 * iqr) ≤ p) && decide (p ≤ q3 + 3 / 2 * iqr))
      else prices
    let filtered := if filtered0 = [] then prices else filtered0
    some { median := pyMedian filtered, mean := pyMean filtered,
           minP := listMinQ filtered, maxP := listMaxQ filtered,
           q1 := q1, q3 := q3,
           sampleVariance := sampleVarianceQ filtered,
           sampleSize := prices.length }

/-- Embeds `_get_item_stats` end to end: query then compute. -/
def get_item_stats (evs : List EventRow) (id name : Option String) : Option ItemStats :=
  getItemStats (apiStatsQuery evs id name)

/-! ## Scanner-side statistics (scanner.py `compute_stats`, lines 240–264) -/

/-- Identity match used by scanner.py per-item queries: SQL `IS` on both
columns (`item_id IS ? AND item_name IS ?`), so NULL groups with NULL. -/
def scannerIdentMatch (eid ename id name : Option String) : Bool :=
  sqlIsB eid id && sqlIsB ename name

/-- The price list read by `compute_stats` from the `prices` table
(scanner.py lines 243–249). -/
def computeStatsQuery (prices : List PriceRow) (id name : Option String) : List ℚ :=
  (prices.filter (fun r =>
    scannerIdentMatch r.item_id r.item_name id name && !(r.price == none))).filterMap (·.price)

/-- The record `compute_stats` returns: `{"count": 0}` for an empty sample
set, otherwise count/median/stddev/p25/p75. `popVariance` is the square of
the reported `pstdev`. -/
structure ComputeStatsOut where
  count : Nat
  median : Option ℚ
  popVariance : Option ℚ
  p25 : Option ℚ
  p75 : Option ℚ
deriving DecidableEq

/-- Embeds `compute_stats` (scanner.py lines 240–264); note that unlike
`_get_item_stats` it returns populated statistics for 1 or 2 samples. -/
def compute_stats (prices : List PriceRow) (id name : Option String) : ComputeStatsOut :=
  let ps := computeStatsQuery prices id name
  if ps = [] then { count := 0, median := none, popVariance := none, p25 := none, p75 := none }
  else
    let s := sortAsc ps
    { count := ps.length, median := some (pyMedian s),
      popVariance := some (popVarianceQ s),
      p25 := some (compactP25 s), p75 := some (compactP75 s) }

/-! ## Retention compactor (scanner.py `compact_old_data`, lines 426–468) -/

/-- Day number of a millisecond timestamp; embeds the SQL expression
`date(ts / 1000, 'unixepoch')` (which renders this number as a date string,
bijectively for the non-negative timestamps the scanner writes). -/
def epochDay (tsMillis : Nat) : Nat := tsMillis / 1000 / 86400

/-- The (date, item_id, item_name) group key of an event row. -/
def eventKey (e : EventRow) : Nat × Option String × Option String :=
  (epochDay e.ts, e.item_id, e.item_name)

/-- The group key of a rollup row. -/
def rollupKey (r : RollupRow) : Nat × Option String × Option String :=
  (r.date, r.item_id, r.item_name)

/-- The GROUP BY query of `compact_old_data` (lines 432–440): the distinct
(date, item_id, item_name) triples among listing events older than the cutoff. -/
def compactGroups (evs : List EventRow) (cutoff : Int) :
    List (Nat × Option String × Option String) :=
  ((evs.filter (fun e => decide ((e.ts : Int) < cutoff) && (e.type == "listing"))).map
    eventKey).dedup

/-- The per-group price query of `compact_old_data` (lines 443–450): all
non-null listing prices of that (date, item) group — note: with no cutoff
condition, so the whole day is summarized. -/
def groupPrices (evs : List EventRow) (g : Nat × Option String × Option String) : List ℚ :=
  (evs.filter (fun e =>
    (epochDay e.ts == g.1) && (e.item_id == g.2.1) && (e.item_name == g.2.2)
      && !(e.price == none) && (e.type == "listing"))).filterMap (·.price)

/-- The rollup row `compact_old_data` builds for a group (lines 452–462). -/
def mkRollup (g : Nat × Option String × Option String) (ps : List ℚ) : RollupRow :=
  let s := sortAsc ps
  { date := g.1, item_id := g.2.1, item_name := g.2.2,
    median := pyMedian ps, p25 := compactP25 s, p75 := compactP75 s, count := ps.length }

/-- The `INSERT OR REPLACE INTO rollups_daily` upsert: the row with the same
primary key, if any, is replaced. (SQLite treats NULL primary-key components
as pairwise distinct, so a group with an unset field would accumulate rather
than replace; this model treats unset-equals-unset, which only affects
replacement — the inserted row is present either way, which is all the
rollup-coverage statements below rely on.) -/
def upsertRollup (rs : List RollupRow) (r : RollupRow) : List RollupRow :=
  (rs.filter (fun x => !(decide (rollupKey x = rollupKey r)))) ++ [r]

/-- One iteration of the rollup loop: skip groups whose price list is empty
(`if prices:`), otherwise upsert the computed rollup. -/
def rollupStep (evs : List EventRow) (rs : List RollupRow)
    (g : Nat × Option String × Option String) : List RollupRow :=
  let ps := groupPrices evs g
  if ps = [] then rs else upsertRollup rs (mkRollup g ps)

/-- Rollup phase of `compact_old_data` (lines 431–462): for every group of
old listing events, compute and upsert a daily rollup. Reads go through the
compacting connection, so they see pending rows as well. -/
def rollupPhase (db : Db) (cutoff : Int) : Db :=
  { db with rollups := ((compactGroups (visibleEvents db) cutoff).foldl
      (rollupStep (visibleEvents db)) db.rollups) }

/-- Delete phase of `compact_old_data` (lines 464–467) followed by the final
`conn.commit()`: every event older than the cutoff and every price sample
older than the cutoff is removed. -/
def deletePhase (db : Db) (cutoff : Int) : Db :=
  { db with
    events := (visibleEvents db).filter (fun e => !(decide ((e.ts : Int) < cutoff))),
    eventsPending := [],
    prices := db.prices.filter (fun p => !(decide ((p.seen_at : Int) < cutoff))) }

/-- Embeds `compact_old_data` at an explicit cutoff: rollups first, then deletion. -/
def compactAtCutoff (db : Db) (cutoff : Int) : Db :=
  deletePhase (rollupPhase db cutoff) cutoff

/-- Embeds `compact_old_data` (scanner.py lines 426–468) with the cutoff
`now - RAW_RETENTION_DAYS * 86400 * 1000` computed from the wall clock. -/
def compact_old_data (db : Db) (nowMillis : Nat) (retentionDays : Nat) : Db :=
  compactAtCutoff db ((nowMillis : Int) - (retentionDays : Int) * 86400 * 1000)

/-- A rollup row covering the (date, item identity) of an event exists. -/
def rollupCoveredB (db : Db) (e : EventRow) : Bool :=
  db.rollups.any (fun r => decide (rollupKey r = eventKey e))

/-! ## Market client (scanner.py `fetch_listings` / `fetch_transactions`, lines 125–161) -/

/-- Outcome of one HTTP request as supplied by an oracle: a status code with
the parsed body (meaningful for 200), or a transport failure. -/
inductive HttpOut (α : Type) where
  | status (code : Nat) (body : α)
  | transportError (msg : String)

/-- Shared response classification of both fetchers: transport failures and
5xx raise RuntimeError, 401 sleeps 2 seconds and raises PermissionError,
any other non-200 raises RuntimeError, 200 returns the parsed body. The
first component lists the sleeps performed (seconds). -/
def fetchResponse {α : Type} (o : HttpOut α) : List ℚ × Except PyExc α :=
  match o with
  | .transportError m => ([], .error (.runtimeError ("Request error: " ++ m)))
  | .status code body =>
      if code = 401 then
        ([2], .error (.permissionError "Unauthorized: Check DONUTSMP_AUTH_KEY and header format."))
      else if 500 ≤ code then ([], .error (.runtimeError "Server error"))
      else if code ≠ 200 then ([], .error (.runtimeError "Unexpected status"))
      else ([], .ok body)

/-- Embeds `fetch_listings` (scanner.py lines 125–143) given the oracle's
outcome for the requested page. -/
def fetch_listings (o : HttpOut (List ListingEntry)) :
    List ℚ × Except PyExc (List ListingEntry) :=
  fetchResponse o

/-- Upstream page cap `MAX_TRANSACTIONS_PAGES` (scanner.py line 30). -/
def maxTransactionsPages : Nat := 10

/-- Embeds `fetch_transactions` (scanner.py lines 146–161): pages outside
[1,10] are rejected with ValueError before any network activity. -/
def fetch_transactions (page : Nat) (o : HttpOut (List TransactionEntry)) :
    List ℚ × Except PyExc (List TransactionEntry) :=
  if page < 1 ∨ maxTransactionsPages < page then
    ([], .error (.valueError "Transaction page must be between 1 and 10"))
  else fetchResponse o

/-! ## Poll scheduler (scanner.py `poll_once`, lines 310–327) -/

/-- Result of the listings half of a poll cycle. -/
structure PollListingsOut where
  db : Db
  inserted : Nat
  sleeps : List ℚ
  warns : Nat
deriving DecidableEq

/-- The `for p in range(1, pages + 1)` loop of `poll_once` (lines 313–319):
each page's fetch-and-store is wrapped in its own try/except, so any
exception — including PermissionError — is caught, logged as a warning, and
the loop moves on with the connection state as the failed store left it. -/
def pollListingsGo (httpL : Nat → HttpOut (List ListingEntry)) (ts : Nat) :
    List Nat → Db → PollListingsOut
  | [], db => { db := db, inserted := 0, sleeps := [], warns := 0 }
  | p :: ps, db =>
      let fr := fetch_listings (httpL p)
      match fr.2 with
      | .error _ =>
          let rest := pollListingsGo httpL ts ps db
          { db := rest.db, inserted := rest.inserted, sleeps := fr.1 ++ rest.sleeps,
            warns := rest.warns + 1 }
      | .ok entries =>
          let sr := store_listings db ts entries
          match sr.2 with
          | .error _ =>
              let rest := pollListingsGo httpL ts ps sr.1
              { db := rest.db, inserted := rest.inserted, sleeps := fr.1 ++ rest.sleeps,
                warns := rest.warns + 1 }
          | .ok k =>
              let rest := pollListingsGo httpL ts ps sr.1
              { db := rest.db, inserted := k + rest.inserted, sleeps := fr.1 ++ rest.sleeps,
                warns := rest.warns }

/-- Result of the transactions half of a poll cycle; `pagesTried` records
every page number for which a fetch was attempted. -/
structure PollTxOut where
  db : Db
  inserted : Nat
  pagesTried : List Nat
  sleeps : List ℚ
  warns : Nat
deriving DecidableEq

/-- The `for p in range(1, min(MAX_TRANSACTIONS_PAGES, pages) + 1)` loop of
`poll_once` (lines 320–326), with the same per-page exception isolation. -/
def pollTxGo (httpT : Nat → HttpOut (List TransactionEntry)) (ts : Nat) :
    List Nat → Db → PollTxOut
  | [], db => { db := db, inserted := 0, pagesTried := [], sleeps := [], warns := 0 }
  | p :: ps, db =>
      let fr := fetch_transactions p (httpT p)
      match fr.2 with
      | .error _ =>
          let rest := pollTxGo httpT ts ps db
          { db := rest.db, inserted := rest.inserted, pagesTried := p :: rest.pagesTried,
            sleeps := fr.1 ++ rest.sleeps, warns := rest.warns + 1 }
      | .ok entries =>
          let sr := store_transactions db ts entries
          match sr.2 with
          | .error _ =>
              let rest := pollTxGo httpT ts ps sr.1
              { db := rest.db, inserted := rest.inserted, pagesTried := p :: rest.pagesTried,
                sleeps := fr.1 ++ rest.sleeps, warns := rest.warns + 1 }
          | .ok k =>
              let rest := pollTxGo httpT ts ps sr.1
              { db := rest.db, inserted := k + rest.inserted, pagesTried := p :: rest.pagesTried,
                sleeps := fr.1 ++ rest.sleeps, warns := rest.warns }

/-- Result of one full `poll_once` call. -/
structure PollOut where
  db : Db
  listingsInserted : Nat
  txInserted : Nat
  txPagesTried : List Nat
  sleeps : List ℚ
  warns : Nat
deriving DecidableEq

/-- Embeds `poll_once` (scanner.py lines 310–327): listing pages 1..pages,
then transaction pages 1..min(MAX_TRANSACTIONS_PAGES, pages). -/
def poll_once (httpL : Nat → HttpOut (List ListingEntry))
    (httpT : Nat → HttpOut (List TransactionEntry)) (ts : Nat) (db : Db)
    (pages : Nat) : PollOut :=
  let lr := pollListingsGo httpL ts (List.range' 1 pages) db
  let tr := pollTxGo httpT ts (List.range' 1 (min maxTransactionsPages pages)) lr.db
  { db := tr.db, listingsInserted := lr.inserted, txInserted := tr.inserted,
    txPagesTried := tr.pagesTried, sleeps := lr.sleeps ++ tr.sleeps,
    warns := lr.warns + tr.warns }

/-! ## Poll loop iteration (scanner.py `run_poll_loop`, lines 586–616) -/

/-- The module-level `_last_compaction = 0` initial value (scanner.py line 34). -/
def initialLastCompaction : ℚ := 0

/-- The compaction-interval check `time.time() - _last_compaction >
COMPACTION_INTERVAL` (scanner.py line 600); times in seconds. -/
def compactionDue (nowSec lastCompaction intervalSec : ℚ) : Bool :=
  decide (intervalSec < nowSec - lastCompaction)

/-- Observable outcome of one iteration of the steady-state `while True`
poll loop. `caughtAtLoop` is the exception caught by the loop-level
handlers (scanner.py lines 605–612), if any. -/
structure IterOut where
  db : Db
  lastCompaction : ℚ
  sleeps : List ℚ
  warns : Nat
  caughtAtLoop : Option PyExc
  compactionRan : Bool
deriving DecidableEq

/-- Embeds one iteration of the steady-state loop of `run_poll_loop`
(scanner.py lines 587–612, excluding the cadence sleep): run `poll_once`,
read the two aggregate counts (pure reads), then run compaction when the
interval check passes and reset the timer. The try body is total in the
embedding: `poll_once` already catches every per-page exception — in
particular a fetch PermissionError never reaches the loop — and the
remaining statements are database reads, so `caughtAtLoop` is `none` and
the 5-second sleeps of the two `except` handlers never happen. -/
def run_poll_loop_iteration (httpL : Nat → HttpOut (List ListingEntry))
    (httpT : Nat → HttpOut (List TransactionEntry)) (nowSec : ℚ) (nowMillis : Nat)
    (db : Db) (pages : Nat) (lastCompaction : ℚ) (intervalSec : ℚ)
    (retentionDays : Nat) : IterOut :=
  let pr := poll_once httpL httpT nowMillis db pages
  if compactionDue nowSec lastCompaction intervalSec then
    { db := compact_old_data pr.db nowMillis retentionDays, lastCompaction := nowSec,
      sleeps := pr.sleeps, warns := pr.warns, caughtAtLoop := none, compactionRan := true }
  else
    { db := pr.db, lastCompaction := lastCompaction, sleeps := pr.sleeps,
      warns := pr.warns, caughtAtLoop := none, compactionRan := false }

/-! ## Full-scan backfill (scanner.py `full_scan_ah`, lines 471–519) -/

/-- Observable outcome of the listing sweep of `full_scan_ah`. -/
structure ScanOut where
  db : Db
  pagesFetched : List Nat
  listingsTotal : Nat
  sleeps : List ℚ
deriving DecidableEq

/-- The `while consecutive_empty < max_empty_pages` sweep of `full_scan_ah`
(lines 485–519), fuelled to a finite number of fetches. An empty page
increments the consecutive-empty counter and advances; a non-empty page
resets the counter to 0, stores, and advances; a failed fetch or store
retries the same page with backoff 3+2·retry up to 3 retries and then
counts the page as empty and advances. The oracle maps each page number to
its (repeatable) response. -/
def fullScanGo (httpL : Nat → HttpOut (List ListingEntry)) (ts : Nat) :
    Nat → Nat → Nat → Nat → Db → ScanOut
  | 0, _, _, _, db => { db := db, pagesFetched := [], listingsTotal := 0, sleeps := [] }
  | fuel + 1, page, ce, retry, db =>
      if 3 ≤ ce then { db := db, pagesFetched := [], listingsTotal := 0, sleeps := [] }
      else
        let fr := fetch_listings (httpL page)
        match fr.2 with
        | .error _ =>
            if 3 < retry + 1 then
              let rest := fullScanGo httpL ts fuel (page + 1) (ce + 1) 0 db
              { db := rest.db, pagesFetched := page :: rest.pagesFetched,
                listingsTotal := rest.listingsTotal, sleeps := fr.1 ++ rest.sleeps }
            else
              let backoff : ℚ := 3 + ((retry + 1 : Nat) : ℚ) * 2
              let rest := fullScanGo httpL ts fuel page ce (retry + 1) db
              { db := rest.db, pagesFetched := page :: rest.pagesFetched,
                listingsTotal := rest.listingsTotal,
                sleeps := fr.1 ++ backoff :: rest.sleeps }
        | .ok entries =>
            if entries = [] then
              let rest := fullScanGo httpL ts fuel (page + 1) (ce + 1) 0 db
              { db := rest.db, pagesFetched := page :: rest.pagesFetched,
                listingsTotal := rest.listingsTotal, sleeps := fr.1 ++ rest.sleeps }
            else
              let sr := store_listings db ts entries
              match sr.2 with
              | .error _ =>
                  if 3 < retry + 1 then
                    let rest := fullScanGo httpL ts fuel (page + 1) (ce + 1) 0 sr.1
                    { db := rest.db, pagesFetched := page :: rest.pagesFetched,
                      listingsTotal := rest.listingsTotal, sleeps := fr.1 ++ rest.sleeps }
                  else
                    let backoff : ℚ := 3 + ((retry + 1 : Nat) : ℚ) * 2
                    let rest := fullScanGo httpL ts fuel page ce (retry + 1) sr.1
                    { db := rest.db, pagesFetched := page :: rest.pagesFetched,
                      listingsTotal := rest.listingsTotal,
                      sleeps := fr.1 ++ backoff :: rest.sleeps }
              | .ok k =>
                  let rest := fullScanGo httpL ts fuel (page + 1) 0 0 sr.1
                  { db := rest.db, pagesFetched := page :: rest.pagesFetched,
                    listingsTotal := k + rest.listingsTotal, sleeps := fr.1 ++ rest.sleeps }

/-- The listing sweep of `full_scan_ah` from its initial state
(page 1, consecutive_empty 0, retry_count 0). -/
def full_scan_listings (httpL : Nat → HttpOut (List ListingEntry)) (ts : Nat)
    (fuel : Nat) (db : Db) : ScanOut :=
  fullScanGo httpL ts fuel 1 0 0 db

/-- Length of the trailing run of empty pages among pages 1..k, with the
counter resetting to 0 at every non-empty page — the value of
`consecutive_empty` after the sweep has processed pages 1..k. -/
def trailEmpties (em : Nat → Bool) : Nat → Nat
  | 0 => 0
  | k + 1 => if em (k + 1) then trailEmpties em k + 1 else 0

/-! ## Reporting surface (api.py endpoints)

Each endpoint runs its cursor work against the store; a fault oracle models
an internal error raised by the database layer during that work. The
endpoints cited by the specification's error-envelope guarantee are
embedded: `api_live` (lines 126–159, with try/except), `api_trend`
(lines 427–444, without) and `api_stats` (lines 447–489, without). The
reporting process uses its own connection, so it reads committed rows only. -/

/-- One row of the `/api/live` response (api.py lines 146–155). -/
structure LiveRow where
  ts : Nat
  item_id : Option String
  item_name : Option String
  price : Option ℚ
  seller_name : Option String
  count : Option Int
  time_left : Option Int
deriving DecidableEq

/-- The payload of `/api/stats` (api.py lines 479–489). -/
structure GlobalStats where
  total_events : Nat
  total_listings : Nat
  total_transactions : Nat
  unique_items : Nat
  events_last_hour : Nat
  data_span_hours : ℚ
deriving DecidableEq

/-- A JSON response body of the reporting surface. -/
inductive ApiPayload where
  | nothing
  | liveData (rows : List LiveRow)
  | trendData (rows : List RollupRow)
  | statsData (s : GlobalStats)
deriving DecidableEq

/-- The jsonify envelope every handler builds: a status flag, an optional
message, the HTTP status code, and the data payload. -/
structure Envelope where
  status : String
  message : Option String
  httpCode : Nat
  payload : ApiPayload
deriving DecidableEq

/-- The success envelope `jsonify({"status": "ok", "data": ...})`. -/
def okEnvelope (p : ApiPayload) : Envelope :=
  { status := "ok", message := none, httpCode := 200, payload := p }

/-- The Python `str(e)` of an exception. -/
def excMessage : PyExc → String
  | .permissionError m => m
  | .runtimeError m => m
  | .valueError m => m
  | .typeError m => m

/-- The error envelope `jsonify({"status": "error", "message": str(e)}), 500`. -/
def errorEnvelope (e : PyExc) : Envelope :=
  { status := "error", message := some (excMessage e), httpCode := 500,
    payload := .nothing }

/-- Cursor work under the fault oracle: the injected exception, if any,
raises; otherwise the query result is returned. -/
def runQuery {α : Type} (fault : Option PyExc) (v : α) : Except PyExc α :=
  match fault with
  | some e => .error e
  | none => .ok v

/-- The `/api/live` query (api.py lines 133–142): listing events of the last
5 minutes, newest first, capped at 100. -/
def liveQuery (evs : List EventRow) (nowMillis : Nat) : List LiveRow :=
  ((sortBy tsDescB (evs.filter (fun e =>
      decide ((nowMillis : Int) - 5 * 60 * 1000 < (e.ts : Int)) && (e.type == "listing")))).take
    100).map (fun e =>
      { ts := e.ts, item_id := e.item_id, item_name := e.item_name, price := e.price,
        seller_name := e.seller_name, count := e.count, time_left := e.time_left })

/-- Embeds `api_live` (api.py lines 126–159): the body is wrapped in
try/except, so an internal error becomes the structured error envelope with
HTTP 500 instead of propagating. -/
def api_live (db : Db) (fault : Option PyExc) (nowMillis : Nat) :
    Except PyExc Envelope :=
  match runQuery fault (liveQuery db.events nowMillis) with
  | .ok rows => .ok (okEnvelope (.liveData rows))
  | .error e => .ok (errorEnvelope e)

/-- Ascending-date comparison for ORDER BY date ASC. -/
def dateAscB (a b : RollupRow) : Bool := decide (a.date ≤ b.date)

/-- The `/api/trend/<item_id>` query (api.py lines 432–440): rollup rows of
the given item id (a path string, matched with `IS`), oldest first. -/
def trendQuery (rollups : List RollupRow) (itemId : String) : List RollupRow :=
  sortBy dateAscB (rollups.filter (fun r => r.item_id == some itemId))

/-- Embeds `api_trend` (api.py lines 427–444): no try/except — an internal
error during the cursor work propagates out of the handler. -/
def api_trend (db : Db) (fault : Option PyExc) (itemId : String) :
    Except PyExc Envelope := do
  let rows ← runQuery fault (trendQuery db.rollups itemId)
  pure (okEnvelope (.trendData rows))

/-- The aggregate computation of `/api/stats` (api.py lines 453–477).
`data_span_hours` follows the source's truthiness test `if first_event and
last_event`, under which a timestamp of 0 counts as absent. -/
def globalStatsOf (evs : List EventRow) (nowMillis : Nat) : GlobalStats :=
  let tmin := (evs.map (·.ts)).min?
  let tmax := (evs.map (·.ts)).max?
  let span : ℚ :=
    match tmin, tmax with
    | some f, some l =>
        if f ≠ 0 ∧ l ≠ 0 then pyRound1 (((l : ℚ) - (f : ℚ)) / (1000 * 60 * 60)) else 0
    | _, _ => 0
  { total_events := evs.length,
    total_listings := (evs.filter (fun e => e.type == "listing")).length,
    total_transactions := (evs.filter (fun e => e.type == "transaction")).length,
    unique_items := ((evs.filterMap (·.item_id)).dedup).length,
    events_last_hour := (evs.filter (fun e =>
      decide ((nowMillis : Int) - 60 * 60 * 1000 < (e.ts : Int)))).length,
    data_span_hours := span }

/-- Embeds `api_stats` (api.py lines 447–489): no try/except — an internal
error during any of its cursor reads propagates out of the handler. -/
def api_stats (db : Db) (fault : Option PyExc) (nowMillis : Nat) :
    Except PyExc Envelope := do
  let s ← runQuery fault (globalStatsOf db.events nowMillis)
  pure (okEnvelope (.statsData s))

/-! ## Concrete fixtures used by witnesses and counterexamples -/

/-- A listing entry whose every conversion succeeds. -/
def goodListingEntry : ListingEntry :=
  { item := { id := some "dirt", display_name := some "Dirt", count := some 64 },
    price := .vNum 5, seller_name := some "alice", seller_uuid := some "u1",
    time_left := .vNum 3600 }

/-- A listing entry whose price is a non-numeric string, so `float(price)`
raises ValueError mid-batch. -/
def badListingEntry : ListingEntry :=
  { item := { id := some "lava", display_name := none, count := none },
    price := .vStr "not-a-number", seller_name := none, seller_uuid := none,
    time_left := .vNull }

/-- A `prices` row with an unset item_id. -/
def nullIdPriceRow : PriceRow :=
  { id := some "L1", item_id := none, item_name := some "Dirt", price := some 5,
    seen_at := 0 }

/-- An `events` listing row with an unset item_id. -/
def nullIdEventRow : EventRow :=
  { type := "listing", ts := 0, item_id := none, item_name := some "Dirt",
    price := some 5, seller_name := none, seller_uuid := none, count := none,
    time_left := none }

/-- An old listing event with a price, eligible for rollup. -/
def oldListingEvent : EventRow :=
  { type := "listing", ts := 86400000, item_id := some "dirt",
    item_name := some "Dirt", price := some 10, seller_name := none,
    seller_uuid := none, count := some 1, time_left := none }

/-- An old transaction event: compaction deletes it without any rollup. -/
def oldTransactionEvent : EventRow :=
  { type := "transaction", ts := 0, item_id := some "gold",
    item_name := some "Gold", price := some 3, seller_name := none,
    seller_uuid := none, count := none, time_left := none }

/-- Two stored listing samples for one identity (fewer than 3). -/
def twoSampleEvents : List EventRow :=
  [{ type := "listing", ts := 1000, item_id := some "dirt", item_name := some "Dirt",
     price := some 5, seller_name := none, seller_uuid := none, count := some 1,
     time_left := none },
   { type := "listing", ts := 2000, item_id := some "dirt", item_name := some "Dirt",
     price := some 7, seller_name := none, seller_uuid := none, count := some 1,
     time_left := none }]

/-- Oracle answering every listings request with HTTP 200 and an empty page. -/
def emptyOracleL : Nat → HttpOut (List ListingEntry) := fun _ => .status 200 []

/-- Oracle answering every transactions request with HTTP 200 and an empty page. -/
def emptyOracleT : Nat → HttpOut (List TransactionEntry) := fun _ => .status 200 []

/-- Oracle answering every listings request with HTTP 401 (Unauthorized). -/
def unauthorizedL : Nat → HttpOut (List ListingEntry) := fun _ => .status 401 []

/-- Oracle answering every transactions request with HTTP 401 (Unauthorized). -/
def unauthorizedT : Nat → HttpOut (List TransactionEntry) := fun _ => .status 401 []

/-- Page results for a full scan: page 2 is non-empty, every other page is
empty, so the consecutive-empty counter resets at page 2 and the sweep ends
after pages 3, 4, 5. -/
def scanPagesW : Nat → List ListingEntry
  | 2 => [goodListingEntry]
  | _ => []

/-- An injected database exception for the reporting-surface statements. -/
def dbFaultW : PyExc := .runtimeError "database is locked"

/-! ## Shared lemmas -/

theorem insertBy_perm {α : Type} (le : α → α → Bool) (x : α) (l : List α) :
    (insertBy le x l).Perm (x :: l) := by
  induction l with
  | nil => simp [insertBy]
  | cons b bs ih =>
    simp only [insertBy]
    split
    · exact List.Perm.refl _
    · exact (ih.cons b).trans (List.Perm.swap x b bs)

theorem sortBy_perm {α : Type} (le : α → α → Bool) (l : List α) :
    (sortBy le l).Perm l := by
  induction l with
  | nil => exact List.Perm.refl _
  | cons x xs ih => exact (insertBy_perm le x (sortBy le xs)).trans (ih.cons x)

theorem apiStatsQuery_length_le (evs : List EventRow) (id name : Option String) :
    (apiStatsQuery evs id name).length ≤ (storedSamples evs id name).length := by
  unfold apiStatsQuery storedSamples
  have h1 : (((sortBy tsDescB (evs.filter (fun e => apiStatsRowFilter e id name))).take
      1000).filterMap (·.price)).Sublist
      ((sortBy tsDescB (evs.filter (fun e => apiStatsRowFilter e id name))).filterMap
        (·.price)) :=
    (List.take_sublist _ _).filterMap _
  have h2 := (sortBy_perm tsDescB (evs.filter (fun e => apiStatsRowFilter e id name))).filterMap
    (·.price)
  exact le_trans h1.length_le (le_of_eq h2.length_eq)

theorem storeListingsGo_ok (ts : Nat) :
    ∀ (es : List ListingEntry) (db : Db) (n : Nat),
      firstConvErrorL ts es = none →
      storeListingsGo ts db n es =
        ({ events := db.events ++ db.eventsPending ++ convRowsPrefixL ts es,
           eventsPending := [], prices := db.prices, rollups := db.rollups },
         .ok (n + es.length)) := by
  intro es
  induction es with
  | nil => intro db n _; simp [storeListingsGo, commitDb, convRowsPrefixL]
  | cons e es ih =>
    intro db n h
    cases hr : toListingRow ts e with
    | error exc =>
      rw [firstConvErrorL, hr] at h
      simp at h
    | ok r =>
      rw [firstConvErrorL, hr] at h
      simp only at h
      simp only [storeListingsGo, convRowsPrefixL, hr]
      have hn : n + 1 + es.length = n + (e :: es).length := by
        simp only [List.length_cons]
        omega
      rw [ih (insertEventRow db r) (n + 1) h, hn]
      simp [insertEventRow, List.append_assoc]

theorem storeListingsGo_err (ts : Nat) :
    ∀ (es : List ListingEntry) (db : Db) (n : Nat) (exc : PyExc),
      firstConvErrorL ts es = some exc →
      storeListingsGo ts db n es =
        ({ db with eventsPending := db.eventsPending ++ convRowsPrefixL ts es },
         .error exc) := by
  intro es
  induction es with
  | nil => intro db n exc h; exact absurd h (by simp [firstConvErrorL])
  | cons e es ih =>
    intro db n exc h
    cases hr : toListingRow ts e with
    | error exc2 =>
      rw [firstConvErrorL, hr] at h
      simp only [Option.some_inj] at h
      subst h
      simp only [storeListingsGo, convRowsPrefixL, hr]
      simp
    | ok r =>
      rw [firstConvErrorL, hr] at h
      simp only at h
      simp only [storeListingsGo, convRowsPrefixL, hr]
      rw [ih (insertEventRow db r) (n + 1) exc h]
      simp [insertEventRow, List.append_assoc]

theorem storeTransactionsGo_ok (ts : Nat) :
    ∀ (es : List TransactionEntry) (db : Db) (n : Nat),
      firstConvErrorT ts es = none →
      storeTransactionsGo ts db n es =
        ({ events := db.events ++ db.eventsPending ++ convRowsPrefixT ts es,
           eventsPending := [], prices := db.prices, rollups := db.rollups },
         .ok (n + es.length)) := by
  intro es
  induction es with
  | nil => intro db n _; simp [storeTransactionsGo, commitDb, convRowsPrefixT]
  | cons e es ih =>
    intro db n h
    cases hr : toTransactionRow ts e with
    | error exc =>
      rw [firstConvErrorT, hr] at h
      simp at h
    | ok r =>
      rw [firstConvErrorT, hr] at h
      simp only at h
      simp only [storeTransactionsGo, convRowsPrefixT, hr]
      have hn : n + 1 + es.length = n + (e :: es).length := by
        simp only [List.length_cons]
        omega
      rw [ih (insertEventRow db r) (n + 1) h, hn]
      simp [insertEventRow, List.append_assoc]

theorem storeTransactionsGo_err (ts : Nat) :
    ∀ (es : List TransactionEntry) (db : Db) (n : Nat) (exc : PyExc),
      firstConvErrorT ts es = some exc →
      storeTransactionsGo ts db n es =
        ({ db with eventsPending := db.eventsPending ++ convRowsPrefixT ts es },
         .error exc) := by
  intro es
  induction es with
  | nil => intro db n exc h; exact absurd h (by simp [firstConvErrorT])
  | cons e es ih =>
    intro db n exc h
    cases hr : toTransactionRow ts e with
    | error exc2 =>
      rw [firstConvErrorT, hr] at h
      simp only [Option.some_inj] at h
      subst h
      simp only [storeTransactionsGo, convRowsPrefixT, hr]
      simp
    | ok r =>
      rw [firstConvErrorT, hr] at h
      simp only at h
      simp only [storeTransactionsGo, convRowsPrefixT, hr]
      rw [ih (insertEventRow db r) (n + 1) exc h]
      simp [insertEventRow, List.append_assoc]

theorem fetchResponse_sleeps_all2 {α : Type} (o : HttpOut α) :
    (fetchResponse o).1.all (fun s => s == 2) = true := by
  cases o with
  | transportError m => rfl
  | status code body =>
    unfold fetchResponse
    by_cases h1 : code = 401
    · simp [h1]
    · by_cases h2 : 500 ≤ code
      · simp [h1, h2]
      · by_cases h3 : code ≠ 200
        · simp [h1, h2, h3]
        · simp [h1, h2, h3]

theorem fetch_transactions_sleeps_all2 (page : Nat) (o : HttpOut (List TransactionEntry)) :
    (fetch_transactions page o).1.all (fun s => s == 2) = true := by
  unfold fetch_transactions
  split
  · rfl
  · exact fetchResponse_sleeps_all2 o

theorem pollListingsGo_sleeps_all2 (httpL : Nat → HttpOut (List ListingEntry)) (ts : Nat) :
    ∀ (l : List Nat) (db : Db),
      (pollListingsGo httpL ts l db).sleeps.all (fun s => s == 2) = true := by
  intro l
  induction l with
  | nil => intro db; rfl
  | cons p ps ih =>
    intro db
    have hf := fetchResponse_sleeps_all2 (httpL p)
    simp only [pollListingsGo]
    cases hr : (fetch_listings (httpL p)).2 with
    | error e =>
      simp only [hr, List.all_append]
      rw [ih db]
      simp only [Bool.and_true]
      exact hf
    | ok entries =>
      simp only [hr]
      cases hs : (store_listings db ts entries).2 with
      | error e =>
        simp only [hs, List.all_append]
        rw [ih (store_listings db ts entries).1]
        simp only [Bool.and_true]
        exact hf
      | ok k =>
        simp only [hs, List.all_append]
        rw [ih (store_listings db ts entries).1]
        simp only [Bool.and_true]
        exact hf

theorem pollTxGo_sleeps_all2 (httpT : Nat → HttpOut (List TransactionEntry)) (ts : Nat) :
    ∀ (l : List Nat) (db : Db),
      (pollTxGo httpT ts l db).sleeps.all (fun s => s == 2) = true := by
  intro l
  induction l with
  | nil => intro db; rfl
  | cons p ps ih =>
    intro db
    have hf := fetch_transactions_sleeps_all2 p (httpT p)
    simp only [pollTxGo]
    cases hr : (fetch_transactions p (httpT p)).2 with
    | error e =>
      simp only [hr, List.all_append]
      rw [ih db]
      simp only [Bool.and_true]
      exact hf
    | ok entries =>
      simp only [hr]
      cases hs : (store_transactions db ts entries).2 with
      | error e =>
        simp only [hs, List.all_append]
        rw [ih (store_transactions db ts entries).1]
        simp only [Bool.and_true]
        exact hf
      | ok k =>
        simp only [hs, List.all_append]
        rw [ih (store_transactions db ts entries).1]
        simp only [Bool.and_true]
        exact hf

theorem poll_once_sleeps_all2 (httpL : Nat → HttpOut (List ListingEntry))
    (httpT : Nat → HttpOut (List TransactionEntry)) (ts : Nat) (db : Db) (pages : Nat) :
    (poll_once httpL httpT ts db pages).sleeps.all (fun s => s == 2) = true := by
  unfold poll_once
  simp only [List.all_append]
  rw [pollListingsGo_sleeps_all2, pollTxGo_sleeps_all2]
  rfl

theorem pollTxGo_pagesTried (httpT : Nat → HttpOut (List TransactionEntry)) (ts : Nat) :
    ∀ (l : List Nat) (db : Db), (pollTxGo httpT ts l db).pagesTried = l := by
  intro l
  induction l with
  | nil => intro db; rfl
  | cons p ps ih =>
    intro db
    simp only [pollTxGo]
    cases hr : (fetch_transactions p (httpT p)).2 with
    | error e => simp only [hr]; rw [ih]
    | ok entries =>
      simp only [hr]
      cases hs : (store_transactions db ts entries).2 with
      | error e => simp only [hs]; rw [ih]
      | ok k => simp only [hs]; rw [ih]

theorem hasKey_upsert_self (rs : List RollupRow) (r : RollupRow) :
    ∃ x ∈ upsertRollup rs r, rollupKey x = rollupKey r := by
  refine ⟨r, ?_, rfl⟩
  simp [upsertRollup]

theorem hasKey_upsert_mono (rs : List RollupRow) (r : RollupRow)
    (g : Nat × Option String × Option String)
    (h : ∃ x ∈ rs, rollupKey x = g) : ∃ x ∈ upsertRollup rs r, rollupKey x = g := by
  obtain ⟨x, hx, hk⟩ := h
  by_cases hg : rollupKey r = g
  · exact ⟨r, by simp [upsertRollup], hg⟩
  · refine ⟨x, ?_, hk⟩
    unfold upsertRollup
    refine List.mem_append_left _ (List.mem_filter.mpr ⟨hx, ?_⟩)
    simp only [Bool.not_eq_eq_eq_not, Bool.not_true, decide_eq_false_iff_not]
    intro hxr
    exact hg (hxr ▸ hk)

theorem hasKey_rollupStep_mono (evs : List EventRow) (rs : List RollupRow)
    (g g2 : Nat × Option String × Option String)
    (h : ∃ x ∈ rs, rollupKey x = g) :
    ∃ x ∈ rollupStep evs rs g2, rollupKey x = g := by
  by_cases hps : groupPrices evs g2 = []
  · have hstep : rollupStep evs rs g2 = rs := by
      unfold rollupStep
      simp [hps]
    rw [hstep]
    exact h
  · have hstep : rollupStep evs rs g2 = upsertRollup rs (mkRollup g2 (groupPrices evs g2)) := by
      unfold rollupStep
      simp [hps]
    rw [hstep]
    exact hasKey_upsert_mono rs (mkRollup g2 (groupPrices evs g2)) g h

theorem hasKey_foldl_mono (evs : List EventRow) :
    ∀ (gs : List (Nat × Option String × Option String)) (rs : List RollupRow)
      (g : Nat × Option String × Option String),
      (∃ x ∈ rs, rollupKey x = g) →
      ∃ x ∈ gs.foldl (rollupStep evs) rs, rollupKey x = g := by
  intro gs
  induction gs with
  | nil => intro rs g h; exact h
  | cons a gs ih =>
    intro rs g h
    exact ih (rollupStep evs rs a) g (hasKey_rollupStep_mono evs rs g a h)

theorem hasKey_foldl_of_mem (evs : List EventRow) :
    ∀ (gs : List (Nat × Option String × Option String)) (rs : List RollupRow)
      (g : Nat × Option String × Option String),
      g ∈ gs → groupPrices evs g ≠ [] →
      ∃ x ∈ gs.foldl (rollupStep evs) rs, rollupKey x = g := by
  intro gs
  induction gs with
  | nil => intro rs g h; exact absurd h (List.not_mem_nil g)
  | cons a gs ih =>
    intro rs g hg hne
    rcases List.mem_cons.mp hg with h | h
    · subst h
      rw [List.foldl_cons]
      apply hasKey_foldl_mono
      have hstep : rollupStep evs rs g = upsertRollup rs (mkRollup g (groupPrices evs g)) := by
        unfold rollupStep
        simp [hne]
      rw [hstep]
      have hk : rollupKey (mkRollup g (groupPrices evs g)) = g := rfl
      exact hk ▸ hasKey_upsert_self rs (mkRollup g (groupPrices evs g))
    · exact ih (rollupStep evs rs a) g h hne

theorem event_in_compactGroups (e : EventRow) (evs : List EventRow) (cutoff : Int)
    (he : e ∈ evs) (hts : (e.ts : Int) < cutoff) (hty : e.type = "listing") :
    eventKey e ∈ compactGroups evs cutoff := by
  unfold compactGroups
  rw [List.mem_dedup]
  exact List.mem_map_of_mem eventKey (List.mem_filter.mpr ⟨he, by simp [hts, hty]⟩)

theorem groupPrices_ne_nil (e : EventRow) (evs : List EventRow)
    (he : e ∈ evs) (hty : e.type = "listing") (hp : e.price ≠ none) :
    groupPrices evs (eventKey e) ≠ [] := by
  obtain ⟨q, hq⟩ := Option.ne_none_iff_exists'.mp hp
  unfold groupPrices
  intro hnil
  have hmem : e ∈ evs.filter (fun x =>
      (epochDay x.ts == (eventKey e).1) && (x.item_id == (eventKey e).2.1)
        && (x.item_name == (eventKey e).2.2) && !(x.price == none)
        && (x.type == "listing")) :=
    List.mem_filter.mpr ⟨he, by simp [eventKey, hty, hq]⟩
  have hqmem : q ∈ (evs.filter (fun x =>
      (epochDay x.ts == (eventKey e).1) && (x.item_id == (eventKey e).2.1)
        && (x.item_name == (eventKey e).2.2) && !(x.price == none)
        && (x.type == "listing"))).filterMap (·.price) :=
    List.mem_filterMap.mpr ⟨e, hmem, hq⟩
  rw [hnil] at hqmem
  exact List.not_mem_nil q hqmem

theorem fullScanGo_stopped (httpL : Nat → HttpOut (List ListingEntry)) (ts : Nat) :
    ∀ (fuel page ce retry : Nat) (db : Db), 3 ≤ ce →
      (fullScanGo httpL ts fuel page ce retry db).pagesFetched = [] := by
  intro fuel
  cases fuel with
  | zero => intro page ce retry db _; rfl
  | succ f =>
    intro page ce retry db h
    simp only [fullScanGo]
    rw [if_pos h]

theorem fetch_listings_ok200 (body : List ListingEntry) :
    fetch_listings (HttpOut.status 200 body) = ([], Except.ok body) := rfl

theorem fullScanGo_sim (ents : Nat → List ListingEntry) (ts N : Nat)
    (hconv : ∀ p, firstConvErrorL ts (ents p) = none)
    (hN : trailEmpties (fun q => decide (ents q = [])) N = 3)
    (hmin : ∀ j, j < N → trailEmpties (fun q => decide (ents q = [])) j < 3) :
    ∀ (fuel p : Nat) (db : Db), 1 ≤ p → p ≤ N → N + 1 ≤ p + fuel →
      (fullScanGo (fun q => HttpOut.status 200 (ents q)) ts fuel p
        (trailEmpties (fun q => decide (ents q = [])) (p - 1)) 0 db).pagesFetched =
        List.range' p (N - p + 1) := by
  intro fuel
  induction fuel with
  | zero => intro p db h1 h2 h4; omega
  | succ f ih =>
    intro p db h1 h2 h4
    cases p with
    | zero => omega
    | succ q =>
      simp only [Nat.add_sub_cancel]
      have hce : trailEmpties (fun r => decide (ents r = [])) q < 3 :=
        hmin q (by omega)
      simp only [fullScanGo]
      rw [if_neg (by omega)]
      simp only [fetch_listings_ok200]
      by_cases hE : ents (q + 1) = []
      · rw [if_pos hE]
        have htp : trailEmpties (fun r => decide (ents r = [])) (q + 1) =
            trailEmpties (fun r => decide (ents r = [])) q + 1 := by
          simp only [trailEmpties]
          rw [if_pos (by simp [hE])]
        by_cases hpN : q + 1 = N
        · have hstop : trailEmpties (fun r => decide (ents r = [])) q + 1 = 3 := by
            rw [← htp, hpN]
            exact hN
          rw [fullScanGo_stopped _ _ f (q + 1 + 1) _ 0 db (by omega)]
          have hone : N - (q + 1) + 1 = 1 := by omega
          rw [hone, hpN]
          rfl
        · have hlt : q + 1 < N := by omega
          have hrec := ih (q + 1 + 1) db (by omega) (by omega) (by omega)
          simp only [Nat.add_sub_cancel] at hrec
          rw [htp] at hrec
          rw [hrec]
          have hc : N - (q + 1) + 1 = (N - (q + 1 + 1) + 1) + 1 := by omega
          rw [hc]
          rfl
      · rw [if_neg hE]
        have hs := storeListingsGo_ok ts (ents (q + 1)) db 0 (hconv (q + 1))
        simp only [store_listings, hs]
        have htp : trailEmpties (fun r => decide (ents r = [])) (q + 1) = 0 := by
          simp only [trailEmpties]
          rw [if_neg (by simp [hE])]
        have hlt : q + 1 < N := by
          rcases Nat.lt_or_ge (q + 1) N with h | h
          · exact h
          · exfalso
            have hqn : q + 1 = N := by omega
            rw [hqn] at htp
            omega
        have hrec := ih (q + 1 + 1)
          { events := db.events ++ db.eventsPending ++ convRowsPrefixL ts (ents (q + 1)),
            eventsPending := [], prices := db.prices, rollups := db.rollups }
          (by omega) (by omega) (by omega)
        simp only [Nat.add_sub_cancel] at hrec
        rw [htp] at hrec
        rw [hrec]
        have hc : N - (q + 1) + 1 = (N - (q + 1 + 1) + 1) + 1 := by omega
        rw [hc]
        rfl

/-! ## Claims -/

/-- Claim C2 (amended): the Retention Compactor (and scanner `compute_stats`)
read quartiles at indices `max(0, ⌊n/4⌋ − 1)` and `min(n−1, ⌊3n/4⌋ − 1)`
(since ⌊25n/100⌋ = ⌊n/4⌋ and ⌊75n/100⌋ = ⌊3n/4⌋), while the Statistics
Engine `_get_item_stats` uses `⌊n/4⌋` and `⌊3n/4⌋`; the two formulas are
not the same, so the claimed index equality does not hold in general. -/
theorem claim_C2_quartile_formulas : ∀ n : Nat,
    compactP25Idx n = max 0 (((n / 4 : Nat) : Int) - 1) ∧
    compactP75Idx n = min ((n : Int) - 1) (((3 * n / 4 : Nat) : Int) - 1) ∧
    apiQ1Idx n = n / 4 ∧ apiQ3Idx n = 3 * n / 4 := by
  intro n
  have h25 : n * 25 / 100 = n / 4 := by
    rw [show (100 : Nat) = 4 * 25 from rfl, Nat.mul_div_mul_right]
    decide
  have h75 : n * 75 / 100 = 3 * n / 4 := by
    rw [show n * 75 = 3 * n * 25 by ring, show (100 : Nat) = 4 * 25 from rfl,
      Nat.mul_div_mul_right]
    decide
  exact ⟨by rw [compactP25Idx, h25], by rw [compactP75Idx, h75], rfl, rfl⟩

/-- Claim C2 counterexample: on the sorted 4-element price list [1,2,3,4]
the compactor reads p25 = 1 (index 0) and p75 = 3 (index 2) while the
Statistics Engine reads q1 = 2 (index 1) and q3 = 4 (index 3), so the two
computations do not use the same quartile indices nor yield the same
values. -/
theorem claim_C2_counterexample :
    compactP25 [1, 2, 3, 4] = 1 ∧ apiQ1 [1, 2, 3, 4] = 2 ∧
    compactP75 [1, 2, 3, 4] = 3 ∧ apiQ3 [1, 2, 3, 4] = 4 ∧
    compactP25Idx 4 = 0 ∧ apiQ1Idx 4 = 1 ∧
    ¬(compactP25 [1, 2, 3, 4] = apiQ1 [1, 2, 3, 4] ∧
      compactP75 [1, 2, 3, 4] = apiQ3 [1, 2, 3, 4]) := by
  decide

/-- Claim C6: for every item identity whose stored non-null listing price
sample set has size strictly less than 3, `_get_item_stats` returns absent
(None). -/
theorem claim_C6_absent_below_three_samples :
    ∀ (evs : List EventRow) (id name : Option String),
      (storedSamples evs id name).length < 3 → get_item_stats evs id name = none := by
  intro evs id name h
  have hq : (apiStatsQuery evs id name).length < 3 :=
    lt_of_le_of_lt (apiStatsQuery_length_le evs id name) h
  unfold get_item_stats getItemStats
  rw [if_pos (Or.inr hq)]

/-- Claim C6 witness: a store with exactly two samples for an identity
yields no stats record. -/
theorem claim_C6_witness :
    (storedSamples twoSampleEvents (some "dirt") (some "Dirt")).length < 3 ∧
    get_item_stats twoSampleEvents (some "dirt") (some "Dirt") = none :=
  ⟨by decide,
   claim_C6_absent_below_three_samples twoSampleEvents (some "dirt") (some "Dirt")
     (by decide)⟩

/-- Claim C8 (amended): the scanner's per-item reads use SQL `IS` identity
matching, which is exactly nullable-aware equality (absent equals absent),
but the reporting surface's statistics read `_get_item_stats` uses plain
SQL `=`, under which a row with an unset item_id or item_name matches no
query key at all — not even the unset key. -/
theorem claim_C8_identity_matching : ∀ eid ename id name : Option String,
    (scannerIdentMatch eid ename id name = true ↔ (eid = id ∧ ename = name)) ∧
    (apiIdentMatch eid ename id name = true ↔
      (id ≠ none ∧ name ≠ none ∧ eid = id ∧ ename = name)) := by
  intro eid ename id name
  constructor
  · simp [scannerIdentMatch, sqlIsB]
  · cases id <;> cases name <;> cases eid <;> cases ename <;> simp [apiIdentMatch, sqlEqB]

/-- Claim C8 counterexample: a row with an unset item_id is grouped with
the unset key by the scanner's `compute_stats` query (SQL `IS`) but is
invisible to the Statistics Engine's `_get_item_stats` query (SQL `=`),
so the per-item reads of statistics and signal detection do not all use
nullable-aware equality. -/
theorem claim_C8_counterexample :
    computeStatsQuery [nullIdPriceRow] none (some "Dirt") = [5] ∧
    apiStatsQuery [nullIdEventRow] none (some "Dirt") = [] ∧
    scannerIdentMatch none (some "Dirt") none (some "Dirt") = true ∧
    apiIdentMatch none (some "Dirt") none (some "Dirt") = false := by
  decide

/-- Claim C9 (amended): of the reporting endpoints, `api_live` catches
internal errors and returns the structured envelope (status flag "error",
message, HTTP 500), but `api_trend` and `api_stats` have no handler and
propagate the exception past the endpoint boundary. -/
theorem claim_C9_error_envelope :
    ∀ (db : Db) (e : PyExc) (nowMillis : Nat) (itemId : String),
      api_live db (some e) nowMillis = .ok (errorEnvelope e) ∧
      (errorEnvelope e).status = "error" ∧
      (errorEnvelope e).message = some (excMessage e) ∧
      (errorEnvelope e).httpCode = 500 ∧
      api_trend db (some e) itemId = .error e ∧
      api_stats db (some e) nowMillis = .error e ∧
      api_live db none nowMillis =
        .ok (okEnvelope (.liveData (liveQuery db.events nowMillis))) := by
  intro db e nowMillis itemId
  exact ⟨rfl, rfl, rfl, rfl, rfl, rfl, rfl⟩

/-- Claim C9 counterexample: with a database error injected, `api_trend`
and `api_stats` return the propagated exception instead of any envelope,
while `api_live` returns the structured error envelope. -/
theorem claim_C9_counterexample :
    api_trend { events := [], eventsPending := [], prices := [], rollups := [] }
      (some dbFaultW) "dirt" = .error dbFaultW ∧
    api_stats { events := [], eventsPending := [], prices := [], rollups := [] }
      (some dbFaultW) 0 = .error dbFaultW ∧
    api_live { events := [], eventsPending := [], prices := [], rollups := [] }
      (some dbFaultW) 0 = .ok (errorEnvelope dbFaultW) :=
  ⟨rfl, rfl, rfl⟩

/-- Claim C10 (amended): with `_last_compaction` initialized to 0, the
first-cycle compaction check passes exactly when the wall clock (seconds
since the epoch) exceeds the configured interval — true for every realistic
clock and interval, but not for arbitrarily large configured intervals —
and one poll-loop iteration runs compaction exactly when the check passes. -/
theorem claim_C10_first_cycle_compaction : ∀ (nowSec : ℚ) (hours : Nat),
    (compactionDue nowSec initialLastCompaction ((hours * 3600 : Nat) : ℚ) = true ↔
      ((hours * 3600 : Nat) : ℚ) < nowSec) ∧
    ∀ (httpL : Nat → HttpOut (List ListingEntry))
      (httpT : Nat → HttpOut (List TransactionEntry)) (nowMillis : Nat) (db : Db)
      (pages : Nat) (lastC intervalSec : ℚ) (retention : Nat),
      (run_poll_loop_iteration httpL httpT nowSec nowMillis db pages lastC intervalSec
        retention).compactionRan = compactionDue nowSec lastC intervalSec := by
  intro nowSec hours
  constructor
  · simp [compactionDue, initialLastCompaction]
  · intro httpL httpT nowMillis db pages lastC intervalSec retention
    unfold run_poll_loop_iteration
    cases h : compactionDue nowSec lastC intervalSec
    · simp [h]
    · simp [h]

/-- Claim C10 counterexample: at startup time 1760227200 s with a configured
compaction interval of 1,000,000 hours (a positive interval larger than the
epoch time), the first-cycle check fails, so compaction does not run during
the first poll cycle — the claim's "regardless of the configured compaction
interval" is false as stated. -/
theorem claim_C10_counterexample :
    (0 : Nat) < 1000000 ∧
    ((1000000 : ℚ) * 3600 = 3600000000) ∧
    compactionDue 1760227200 initialLastCompaction 3600000000 = false := by
  refine ⟨by decide, by norm_num, ?_⟩
  simp only [compactionDue, initialLastCompaction, decide_eq_false_iff_not]
  norm_num

/-- Claim C1 (amended): during `compact_old_data`, every listing event older
than the retention cutoff that carries a non-null price is covered — at the
moment the delete phase runs — by a Daily Rollup row for its (date, item
identity); transaction events and null-price listing events are outside
this guarantee. -/
theorem claim_C1_listing_rollup_before_delete :
    ∀ (db : Db) (cutoff : Int) (e : EventRow),
      e ∈ visibleEvents db → (e.ts : Int) < cutoff → e.type = "listing" →
      e.price ≠ none →
      rollupCoveredB (rollupPhase db cutoff) e = true := by
  intro db cutoff e he hts hty hp
  have h1 := event_in_compactGroups e (visibleEvents db) cutoff he hts hty
  have h2 := groupPrices_ne_nil e (visibleEvents db) he hty hp
  have h3 := hasKey_foldl_of_mem (visibleEvents db)
    (compactGroups (visibleEvents db) cutoff) db.rollups (eventKey e) h1 h2
  obtain ⟨r, hr, hk⟩ := h3
  unfold rollupCoveredB rollupPhase
  rw [List.any_eq_true]
  exact ⟨r, hr, by simp [hk]⟩

/-- Claim C1 witness: a store holding one old priced listing event has a
covering rollup row in place when the delete phase runs. -/
theorem claim_C1_witness :
    oldListingEvent ∈ visibleEvents
      { events := [oldListingEvent], eventsPending := [], prices := [], rollups := [] } ∧
    ((oldListingEvent.ts : Int) < 700000000000) ∧
    oldListingEvent.type = "listing" ∧
    oldListingEvent.price ≠ none ∧
    rollupCoveredB
      (rollupPhase
        { events := [oldListingEvent], eventsPending := [], prices := [], rollups := [] }
        700000000000) oldListingEvent = true :=
  ⟨by decide, by decide, rfl, by decide,
   claim_C1_listing_rollup_before_delete _ _ _ (by decide) (by decide) rfl (by decide)⟩

/-- Claim C1 counterexample: a transaction event older than the cutoff is
deleted by `compact_old_data` although no rollup row for its (date, item)
ever exists — the claim's universal statement over every raw event is false
as stated. -/
theorem claim_C1_counterexample :
    oldTransactionEvent ∈ visibleEvents
      { events := [oldTransactionEvent], eventsPending := [], prices := [], rollups := [] } ∧
    ((oldTransactionEvent.ts : Int) < 1000) ∧
    (compactAtCutoff
      { events := [oldTransactionEvent], eventsPending := [], prices := [], rollups := [] }
      1000).events = [] ∧
    (compactAtCutoff
      { events := [oldTransactionEvent], eventsPending := [], prices := [], rollups := [] }
      1000).rollups = [] ∧
    rollupCoveredB
      (rollupPhase
        { events := [oldTransactionEvent], eventsPending := [], prices := [], rollups := [] }
        1000) oldTransactionEvent = false := by
  decide

/-- Claim C3 (amended): `store_listings` and `store_transactions` insert
entry by entry into the connection's open transaction and commit once after
the loop. When every entry converts, the whole batch (and any previously
pending rows) commits atomically and the count equals the batch length; when
a conversion raises mid-batch, the already-inserted prefix is NOT rolled
back — it stays pending in the open transaction, visible to the
connection's own reads and committed by the next successful commit. -/
theorem claim_C3_batch_commit_behaviour :
    ∀ (db : Db) (ts : Nat) (esL : List ListingEntry) (esT : List TransactionEntry),
      (firstConvErrorL ts esL = none →
        store_listings db ts esL =
          ({ events := db.events ++ db.eventsPending ++ convRowsPrefixL ts esL,
             eventsPending := [], prices := db.prices, rollups := db.rollups },
           .ok esL.length)) ∧
      (∀ exc, firstConvErrorL ts esL = some exc →
        store_listings db ts esL =
          ({ db with eventsPending := db.eventsPending ++ convRowsPrefixL ts esL },
           .error exc)) ∧
      (firstConvErrorT ts esT = none →
        store_transactions db ts esT =
          ({ events := db.events ++ db.eventsPending ++ convRowsPrefixT ts esT,
             eventsPending := [], prices := db.prices, rollups := db.rollups },
           .ok esT.length)) ∧
      (∀ exc, firstConvErrorT ts esT = some exc →
        store_transactions db ts esT =
          ({ db with eventsPending := db.eventsPending ++ convRowsPrefixT ts esT },
           .error exc)) := by
  intro db ts esL esT
  refine ⟨?_, ?_, ?_, ?_⟩
  · intro h
    show storeListingsGo ts db 0 esL = _
    simpa using storeListingsGo_ok ts esL db 0 h
  · intro exc h
    exact storeListingsGo_err ts esL db 0 exc h
  · intro h
    show storeTransactionsGo ts db 0 esT = _
    simpa using storeTransactionsGo_ok ts esT db 0 h
  · intro exc h
    exact storeTransactionsGo_err ts esT db 0 exc h

/-- Claim C3 witness: a listing batch that fails on its second entry leaves
the first entry's row pending in the open transaction. -/
theorem claim_C3_witness :
    firstConvErrorL 1000 [goodListingEntry, badListingEntry] =
      some (.valueError "could not convert string to float") ∧
    store_listings { events := [], eventsPending := [], prices := [], rollups := [] }
      1000 [goodListingEntry, badListingEntry] =
      ({ events := [],
         eventsPending := [] ++ convRowsPrefixL 1000 [goodListingEntry, badListingEntry],
         prices := [], rollups := [] },
       .error (.valueError "could not convert string to float")) :=
  ⟨rfl,
   (claim_C3_batch_commit_behaviour
       { events := [], eventsPending := [], prices := [], rollups := [] }
       1000 [goodListingEntry, badListingEntry] []).2.1 _ rfl⟩

/-- Claim C3 counterexample: a batch failing mid-way is not all-or-nothing —
the connection state changes on error (the converted prefix stays pending),
and the next call's commit makes that prefix durable, so rows of the failed
batch do become visible in the store. -/
theorem claim_C3_counterexample :
    (store_listings { events := [], eventsPending := [], prices := [], rollups := [] }
      1000 [goodListingEntry, badListingEntry]).2 =
      .error (.valueError "could not convert string to float") ∧
    (store_listings { events := [], eventsPending := [], prices := [], rollups := [] }
      1000 [goodListingEntry, badListingEntry]).1 ≠
      { events := [], eventsPending := [], prices := [], rollups := [] } ∧
    (store_listings
      (store_listings { events := [], eventsPending := [], prices := [], rollups := [] }
        1000 [goodListingEntry, badListingEntry]).1 1001 []).1.events ≠ [] := by
  refine ⟨rfl, ?_, ?_⟩
  · decide
  · decide

/-- Claim C4 (amended): every poll cycle attempts transaction pages 1
through min(10, pages) — the configured listing page count caps the
transaction sweep, so with fewer than 10 listing pages not all 10
transaction pages are fetched. -/
theorem claim_C4_transaction_pages :
    ∀ (httpL : Nat → HttpOut (List ListingEntry))
      (httpT : Nat → HttpOut (List TransactionEntry)) (ts : Nat) (db : Db) (pages : Nat),
      (poll_once httpL httpT ts db pages).txPagesTried =
        List.range' 1 (min maxTransactionsPages pages) := by
  intro httpL httpT ts db pages
  unfold poll_once
  exact pollTxGo_pagesTried httpT ts _ _

/-- Claim C4 counterexample: with the default configuration of 3 listing
pages, a poll cycle attempts transaction pages [1, 2, 3] only, not all
pages 1 through 10. -/
theorem claim_C4_counterexample :
    (poll_once emptyOracleL emptyOracleT 0
      { events := [], eventsPending := [], prices := [], rollups := [] } 3).txPagesTried =
      [1, 2, 3] ∧
    [1, 2, 3] ≠ List.range' 1 10 := by
  refine ⟨?_, by decide⟩
  decide

/-- Claim C5 (amended): an Unauthorized fetch during steady-state polling
never terminates the loop and never reaches the loop-level PermissionError
handler: `poll_once` catches it per page, so the 5-second Fatal-wait pause
does not occur — the only pause is the 2-second sleep inside the fetch
layer — and the iteration completes normally. -/
theorem claim_C5_unauthorized_handling :
    ∀ (httpL : Nat → HttpOut (List ListingEntry))
      (httpT : Nat → HttpOut (List TransactionEntry)) (nowSec : ℚ) (nowMillis : Nat)
      (db : Db) (pages : Nat) (lastC intervalSec : ℚ) (retention : Nat),
      (run_poll_loop_iteration httpL httpT nowSec nowMillis db pages lastC intervalSec
        retention).caughtAtLoop = none ∧
      (run_poll_loop_iteration httpL httpT nowSec nowMillis db pages lastC intervalSec
        retention).sleeps.all (fun s => s == 2) = true := by
  intro httpL httpT nowSec nowMillis db pages lastC intervalSec retention
  have hs := poll_once_sleeps_all2 httpL httpT nowMillis db pages
  constructor
  · unfold run_poll_loop_iteration
    cases h : compactionDue nowSec lastC intervalSec
    · simp [h]
    · simp [h]
  · unfold run_poll_loop_iteration
    cases h : compactionDue nowSec lastC intervalSec
    · simpa [h] using hs
    · simpa [h] using hs

/-- Claim C5 counterexample: with every fetch returning 401, one poll-loop
iteration completes with two 2-second sleeps (one per fetched page, from
the fetch layer), no exception at the loop level, and no 5-second
Fatal-wait pause — contradicting the claimed fixed Fatal-wait delay. -/
theorem claim_C5_counterexample :
    (fetch_listings (unauthorizedL 1)).2 =
      .error (.permissionError "Unauthorized: Check DONUTSMP_AUTH_KEY and header format.") ∧
    (run_poll_loop_iteration unauthorizedL unauthorizedT 1000 0
      { events := [], eventsPending := [], prices := [], rollups := [] }
      1 0 100000 7).sleeps = [2, 2] ∧
    (run_poll_loop_iteration unauthorizedL unauthorizedT 1000 0
      { events := [], eventsPending := [], prices := [], rollups := [] }
      1 0 100000 7).caughtAtLoop = none ∧
    (5 : ℚ) ∉ (run_poll_loop_iteration unauthorizedL unauthorizedT 1000 0
      { events := [], eventsPending := [], prices := [], rollups := [] }
      1 0 100000 7).sleeps := by
  have hdue : compactionDue 1000 0 100000 = false := by
    simp only [compactionDue, decide_eq_false_iff_not]
    norm_num
  refine ⟨rfl, ?_, ?_, ?_⟩
  · simp only [run_poll_loop_iteration, hdue, Bool.false_eq_true, if_false]
    decide
  · simp only [run_poll_loop_iteration, hdue, Bool.false_eq_true, if_false]
  · simp only [run_poll_loop_iteration, hdue, Bool.false_eq_true, if_false]
    decide

/-- Claim C7: when every page request of the full-scan backfill succeeds,
the listing sweep fetches exactly pages 1..N, where N is the first page at
which the consecutive-empty counter reaches 3 — i.e. it terminates exactly
when 3 consecutive empty pages have been seen — and any non-empty page
resets the consecutive-empty counter to 0. -/
theorem claim_C7_scan_termination :
    ∀ (ents : Nat → List ListingEntry) (ts N fuel : Nat) (db : Db),
      (∀ p, firstConvErrorL ts (ents p) = none) →
      trailEmpties (fun q => decide (ents q = [])) N = 3 →
      (∀ j, j < N → trailEmpties (fun q => decide (ents q = [])) j < 3) →
      N ≤ fuel →
      (full_scan_listings (fun p => HttpOut.status 200 (ents p)) ts fuel db).pagesFetched =
        List.range' 1 N ∧
      (∀ k, ents (k + 1) ≠ [] →
        trailEmpties (fun q => decide (ents q = [])) (k + 1) = 0) := by
  intro ents ts N fuel db hconv hN hmin hfuel
  have hN1 : 1 ≤ N := by
    by_contra h
    have hz : N = 0 := by omega
    rw [hz] at hN
    simp [trailEmpties] at hN
  constructor
  · have hsim := fullScanGo_sim ents ts N hconv hN hmin fuel 1 db (by omega) hN1 (by omega)
    unfold full_scan_listings
    have htz : trailEmpties (fun q => decide (ents q = [])) (1 - 1) = 0 := rfl
    rw [htz] at hsim
    rw [hsim]
    congr 1
    omega
  · intro k hk
    simp only [trailEmpties]
    rw [if_neg (by simp [hk])]

/-- Claim C7 witness: with page 2 non-empty and all other pages empty, the
sweep fetches pages 1..5 (the run of empties at 1 is reset by page 2; pages
3, 4, 5 are the 3 consecutive empties), and the counter is 0 after page 2. -/
theorem claim_C7_witness :
    (full_scan_listings (fun p => HttpOut.status 200 (scanPagesW p)) 1000 10
      { events := [], eventsPending := [], prices := [], rollups := [] }).pagesFetched =
      List.range' 1 5 ∧
    trailEmpties (fun q => decide (scanPagesW q = [])) 2 = 0 :=
  have h := claim_C7_scan_termination scanPagesW 1000 5 10
    { events := [], eventsPending := [], prices := [], rollups := [] }
    (fun p =>
      match p with
      | 0 => rfl
      | 1 => rfl
      | 2 => rfl
      | _ + 3 => rfl)
    (by decide) (by decide) (by decide)
  ⟨h.1, h.2 1 (by decide)⟩
